import Mathlib

/-!
Verification of the semiphemeral tweet-deletion engine.

Shallow embedding of the Python sources:
  * `app/src/common.py` — the deletion candidate selector `tweets_to_delete`;
  * `app/src/jobs.py`   — rate-limit handling, thread-exclusion recompute,
    the fetch/delete job entry points and the per-item delete loops;
  * `app/src/web.py`    — the settings endpoint that clamps the DM threshold.

Python `datetime` values are modelled as integers (`PyTime`), counting
proleptic-Gregorian ordinal days as Python's `datetime.toordinal` does:
`datetime.min` is ordinal 1, `datetime.max` is ordinal 3652059 and
`datetime(2006, 7, 1)` is ordinal 732493.  `timedelta(days = n)` is
subtraction of `n`; `OverflowError` in `utcnow() - timedelta(...)` is the
computed ordinal falling outside `[1, 3652059]`.
-/

namespace Semiphemeral

abbrev PyTime := Int

/-- Ordinal of `datetime.min` (0001-01-01). -/
def pyDatetimeMin : PyTime := 1

/-- Ordinal of `datetime.max`'s date (9999-12-31). -/
def pyDatetimeMax : PyTime := 3652059

/-- Ordinal of `datetime(2006, 7, 1)`, the clamp target in `tweets_to_delete`
("shortly before Twitter was launched"). -/
def july_1_2006 : PyTime := 732493

/-- `utcnow() - timedelta(days = ...)` raises `OverflowError` exactly when the
result leaves the representable datetime range. -/
def overflowsPyDate (t : Int) : Bool :=
  decide (t < pyDatetimeMin) || decide (t > pyDatetimeMax)

/-- The user-settings columns consumed by the job engine
(`users` table; thresholds are database integers). -/
structure User where
  id : Nat
  twitter_id : Nat
  paused : Bool
  blocked : Bool
  delete_tweets : Bool
  tweets_days_threshold : Int
  tweets_enable_retweet_threshold : Bool
  tweets_retweet_threshold : Int
  tweets_enable_like_threshold : Bool
  tweets_like_threshold : Int
  tweets_threads_threshold : Bool
  retweets_likes : Bool
  retweets_likes_delete_retweets : Bool
  retweets_likes_retweets_threshold : Int
  retweets_likes_delete_likes : Bool
  retweets_likes_likes_threshold : Int
  direct_messages : Bool
  direct_messages_threshold : Int
deriving Repr, DecidableEq

/-- A row of the `tweets` table.  `like_count` is the column called
`favorite_count` in the queries of `common.py` and `like_count` in `jobs.py`;
both name the same stored like count. -/
structure Tweet where
  user_id : Nat
  twitter_user_id : Nat
  twitter_id : Nat
  created_at : PyTime
  text : String
  is_retweet : Bool
  retweet_id : Option Nat
  is_reply : Bool
  retweet_count : Int
  like_count : Int
  exclude_from_delete : Bool
  is_deleted : Bool
  thread_id : Option Nat
deriving Repr, DecidableEq

/-- A row of the `threads` table. -/
structure Thread where
  id : Nat
  user_id : Nat
  conversation_id : Nat
  should_exclude : Bool
deriving Repr, DecidableEq

/-- A row of the `likes` table. -/
structure Like where
  user_id : Nat
  twitter_id : Nat
  created_at : PyTime
  author_id : Nat
  is_deleted : Bool
  is_fascist : Bool
deriving Repr, DecidableEq

/-- The relational store as seen by the selector and the exclusion recompute. -/
structure DB where
  tweets : List Tweet
  threads : List Thread
deriving Repr, DecidableEq

/-! ### `common.py` — `tweets_to_delete` -/

/-- The `datetime_threshold` computation at the top of `tweets_to_delete`:
`utcnow() - timedelta(days=user.tweets_days_threshold)`, with the
`OverflowError` handler substituting July 1, 2006. -/
def tweetsDeleteThreshold (user : User) (now : PyTime) : PyTime :=
  if overflowsPyDate (now - user.tweets_days_threshold) then july_1_2006
  else now - user.tweets_days_threshold

/-- The `where` clauses shared by both subqueries of `tweets_to_delete`:
ownership, not deleted, not a retweet, older than the threshold, the two
optional engagement thresholds, and (unless `include_manually_excluded`)
not manually excluded. -/
def tweetFilters (user : User) (threshold : PyTime)
    (include_manually_excluded : Bool) (t : Tweet) : Bool :=
  t.user_id == user.id
  && t.twitter_user_id == user.twitter_id
  && t.is_deleted == false
  && t.is_retweet == false
  && decide (t.created_at < threshold)
  && (!user.tweets_enable_retweet_threshold
      || decide (t.retweet_count < user.tweets_retweet_threshold))
  && (!user.tweets_enable_like_threshold
      || decide (t.like_count < user.tweets_like_threshold))
  && (include_manually_excluded || t.exclude_from_delete == false)

/-- The `Tweet.join(Thread)` of the first subquery together with its
`Thread.should_exclude == False` clause: the tweet's `thread_id` foreign key
must resolve to a thread row that is not excluded. -/
def threadJoinOk (threads : List Thread) (t : Tweet) : Bool :=
  match t.thread_id with
  | none => false
  | some tid =>
    match threads.find? (fun th => th.id == tid) with
    | none => false
    | some th => th.should_exclude == false

/-- Ascending order on `created_at`, the sort key of `tweets_to_delete`. -/
def tweetLe (a b : Tweet) : Prop := a.created_at ≤ b.created_at

instance : DecidableRel tweetLe := fun _ _ => Int.decLe _ _

instance : IsTotal Tweet tweetLe := ⟨fun _ _ => Int.le_total _ _⟩

instance : IsTrans Tweet tweetLe := ⟨fun _ _ _ => Int.le_trans⟩

/-- Body of `tweets_to_delete` once `datetime_threshold` is fixed: the
subquery over tweets with threads, the subquery over tweets without threads,
concatenated and sorted ascending by `created_at`. -/
def tweetsToDeleteAt (db : DB) (user : User) (threshold : PyTime)
    (include_manually_excluded : Bool) : List Tweet :=
  let withThreads := db.tweets.filter fun t =>
    threadJoinOk db.threads t
    && tweetFilters user threshold include_manually_excluded t
  let withoutThreads := db.tweets.filter fun t =>
    t.thread_id == none
    && tweetFilters user threshold include_manually_excluded t
  List.insertionSort tweetLe (withThreads ++ withoutThreads)

/-- `common.py` `tweets_to_delete(user, include_manually_excluded)`: the
deletion candidate selector, evaluated against store `db` at clock time
`now`. -/
def tweets_to_delete (db : DB) (user : User) (now : PyTime)
    (include_manually_excluded : Bool) : List Tweet :=
  tweetsToDeleteAt db user (tweetsDeleteThreshold user now)
    include_manually_excluded

/-! ### `jobs.py` — rate-limit handler -/

/-- `handle_tweepy_rate_limit`: given the `x-rate-limit-reset` header (absent
or an integer timestamp) and the current Unix time, the number of seconds the
job sleeps.  With no header the reset is taken to be `now + 60`; the handler
sleeps `sleep_time + 1` seconds when `sleep_time > 0` and otherwise does not
sleep at all. -/
def handle_tweepy_rate_limit (reset_header : Option Int) (now : Int) : Int :=
  let reset_time : Int :=
    match reset_header with
    | none => now + 60
    | some r => r
  let sleep_time := reset_time - now
  if sleep_time > 0 then sleep_time + 1 else 0

/-! ### `jobs.py` — thread-exclusion recompute -/

/-- The join conditions of the query in `calculate_excluded_threads`: a tweet
of the user, in the given thread, not deleted, not a retweet, and meeting or
exceeding BOTH engagement thresholds. -/
def tweetProtectsThread (user : User) (th : Thread) (t : Tweet) : Bool :=
  t.thread_id == some th.id
  && t.user_id == user.id
  && t.is_deleted == false
  && t.is_retweet == false
  && decide (user.tweets_retweet_threshold ≤ t.retweet_count)
  && decide (user.tweets_like_threshold ≤ t.like_count)

/-- The first update of `calculate_excluded_threads`: reset `should_exclude`
on a thread when it belongs to the user. -/
def clearStep (user : User) (th : Thread) : Thread :=
  if th.user_id == user.id then { th with should_exclude := false } else th

/-- The second update of `calculate_excluded_threads`: set `should_exclude`
on a thread of the user joined to some qualifying tweet. -/
def excludeStep (user : User) (tweets : List Tweet) (th : Thread) : Thread :=
  if th.user_id == user.id && tweets.any (tweetProtectsThread user th)
  then { th with should_exclude := true }
  else th

/-- `calculate_excluded_threads(user)`: reset `should_exclude` on all of the
user's threads, then, if `user.tweets_threads_threshold` is set, mark
`should_exclude = True` on every thread of the user joined to a qualifying
tweet.  Returns the updated `threads` table. -/
def calculate_excluded_threads (user : User) (db : DB) : List Thread :=
  let cleared := db.threads.map (clearStep user)
  if user.tweets_threads_threshold then
    cleared.map (excludeStep user db.tweets)
  else cleared

/-- `calculate_excluded_threads` as a transformation of the whole store: it
only writes the `threads` table. -/
def runCalculateExcludedThreads (user : User) (db : DB) : DB :=
  { db with threads := calculate_excluded_threads user db }

/-! ### `jobs.py` — fetch: update of an already-stored tweet -/

/-- The fields of a tweepy v1.1 status consumed by the fetch job. -/
structure Status where
  id_str : Nat
  created_at : PyTime
  text : String
  in_reply_to_status_id_str : Option Nat
  retweeted_status_id_str : Option Nat
  retweet_count : Int
  favorite_count : Int
deriving Repr, DecidableEq

/-- The `tweet.update(...)` issued by the fetch job when the tweet already
exists: it rewrites text, retweet/reply metadata, engagement counts and
`thread_id`, and touches nothing else. -/
def fetchUpdateExistingTweet (status : Status) (thread_id : Nat)
    (tweet : Tweet) : Tweet :=
  { tweet with
    text := status.text
    is_retweet := status.retweeted_status_id_str.isSome
    retweet_id := status.retweeted_status_id_str
    is_reply := status.in_reply_to_status_id_str.isSome
    retweet_count := status.retweet_count
    like_count := status.favorite_count
    thread_id := some thread_id }

/-! ### `jobs.py` — job status at the entry points -/

inductive JobStatus where
  | pending
  | active
  | finished
  | canceled
deriving Repr, DecidableEq

/-- The status update at the top of the `delete` job: it returns early if the
job is already canceled, and otherwise sets the status to active. -/
def deleteEntryStatus (s : JobStatus) : JobStatus :=
  if s = JobStatus.canceled then s else JobStatus.active

/-- The status update at the top of the `fetch` job: it sets the status to
active unconditionally, with no check of the current status. -/
def fetchEntryStatus (_s : JobStatus) : JobStatus := JobStatus.active

/-! ### `jobs.py` — per-item delete loops -/

/-- One iteration of the unretweet loop: `api.destroy_status` either succeeds
or raises (the `except` branch is `pass`); in both cases the tweet is updated
with `is_deleted=True` and `retweets_deleted` is incremented. -/
def unretweetIter (destroy_ok : Bool) (t : Tweet) (retweets_deleted : Nat) :
    Tweet × Nat :=
  if destroy_ok then
    ({ t with is_deleted := true }, retweets_deleted + 1)
  else
    ({ t with is_deleted := true }, retweets_deleted + 1)

/-- One iteration of the unlike loop: `api.destroy_favorite` either succeeds
or raises; in both cases the like is updated with `is_deleted=True` and
`likes_deleted` is incremented. -/
def unlikeIter (destroy_ok : Bool) (lk : Like) (likes_deleted : Nat) :
    Like × Nat :=
  if destroy_ok then
    ({ lk with is_deleted := true }, likes_deleted + 1)
  else
    ({ lk with is_deleted := true }, likes_deleted + 1)

/-- One iteration of the delete-tweet loop: `api.destroy_status` either
succeeds or raises; in both cases the tweet is updated with `is_deleted=True`
and `tweets_deleted` is incremented. -/
def deleteTweetIter (destroy_ok : Bool) (t : Tweet) (tweets_deleted : Nat) :
    Tweet × Nat :=
  if destroy_ok then
    ({ t with is_deleted := true }, tweets_deleted + 1)
  else
    ({ t with is_deleted := true }, tweets_deleted + 1)

/-- The delete-tweet loop over the selected tweets, each paired with the
outcome of its external destroy call; yields the updated rows and counter. -/
def deleteTweetsLoop : List (Bool × Tweet) → Nat → List Tweet × Nat
  | [], c => ([], c)
  | (ok, t) :: rest, c =>
    let step := deleteTweetIter ok t c
    let tail := deleteTweetsLoop rest step.2
    (step.1 :: tail.1, tail.2)

/-- The unretweet loop over the selected retweets. -/
def unretweetLoop : List (Bool × Tweet) → Nat → List Tweet × Nat
  | [], c => ([], c)
  | (ok, t) :: rest, c =>
    let step := unretweetIter ok t c
    let tail := unretweetLoop rest step.2
    (step.1 :: tail.1, tail.2)

/-- The unlike loop over the selected likes. -/
def unlikeLoop : List (Bool × Like) → Nat → List Like × Nat
  | [], c => ([], c)
  | (ok, lk) :: rest, c =>
    let step := unlikeIter ok lk c
    let tail := unlikeLoop rest step.2
    (step.1 :: tail.1, tail.2)

/-! ### `web.py` / `jobs.py` — DM threshold -/

/-- The clamp in `api_post_settings` (`web.py`): a requested
`direct_messages_threshold` above 29 is stored as 29. -/
def api_post_settings_dm_threshold (requested : Int) : Int :=
  if requested > 29 then 29 else requested

/-- The DM cutoff computed in the `delete` job:
`utcnow() - timedelta(days=user.direct_messages_threshold)`, with no clamp. -/
def deleteDmThreshold (user : User) (now : PyTime) : PyTime :=
  now - user.direct_messages_threshold

/-- The DM loop's condition `created_timestamp <= datetime_threshold`: whether
a DM created at `created` is deleted by the delete job at clock `now`. -/
def dmShouldDelete (user : User) (now created : PyTime) : Bool :=
  decide (created ≤ deleteDmThreshold user now)

/-! ### Concrete sample data used by witnesses -/

/-- A concrete user record used to instantiate theorems on concrete inputs. -/
def sampleUser : User where
  id := 1
  twitter_id := 11
  paused := false
  blocked := false
  delete_tweets := true
  tweets_days_threshold := 30
  tweets_enable_retweet_threshold := false
  tweets_retweet_threshold := 20
  tweets_enable_like_threshold := false
  tweets_like_threshold := 20
  tweets_threads_threshold := true
  retweets_likes := true
  retweets_likes_delete_retweets := true
  retweets_likes_retweets_threshold := 30
  retweets_likes_delete_likes := true
  retweets_likes_likes_threshold := 30
  direct_messages := true
  direct_messages_threshold := 30

/-- A concrete tweet protecting its thread (high engagement). -/
def sampleProtectTweet : Tweet where
  user_id := 1
  twitter_user_id := 11
  twitter_id := 100
  created_at := 500
  text := ""
  is_retweet := false
  retweet_id := none
  is_reply := false
  retweet_count := 50
  like_count := 60
  exclude_from_delete := false
  is_deleted := false
  thread_id := some 5

/-- A concrete already-tombstoned tweet. -/
def sampleDeletedTweet : Tweet where
  user_id := 1
  twitter_user_id := 11
  twitter_id := 101
  created_at := 400
  text := ""
  is_retweet := false
  retweet_id := none
  is_reply := false
  retweet_count := 0
  like_count := 0
  exclude_from_delete := false
  is_deleted := true
  thread_id := none

/-- A concrete store with one thread (id 5) and the two tweets above. -/
def sampleDb : DB := ⟨[sampleProtectTweet, sampleDeletedTweet], [⟨5, 1, 9, false⟩]⟩

/-- A concrete fetched status, used to instantiate the fetch update. -/
def sampleStatus : Status where
  id_str := 100
  created_at := 500
  text := ""
  in_reply_to_status_id_str := none
  retweeted_status_id_str := none
  retweet_count := 3
  favorite_count := 4

/-! ### Generic lemmas about the embedded operations -/

theorem tweetFilters_eq_true_iff {user : User} {thr : PyTime} {inc : Bool}
    {t : Tweet} :
    tweetFilters user thr inc t = true ↔
      t.user_id = user.id ∧ t.twitter_user_id = user.twitter_id ∧
      t.is_deleted = false ∧ t.is_retweet = false ∧ t.created_at < thr ∧
      (user.tweets_enable_retweet_threshold = true →
        t.retweet_count < user.tweets_retweet_threshold) ∧
      (user.tweets_enable_like_threshold = true →
        t.like_count < user.tweets_like_threshold) ∧
      (inc = true ∨ t.exclude_from_delete = false) := by
  simp only [tweetFilters, Bool.and_eq_true, Bool.or_eq_true, beq_iff_eq,
    decide_eq_true_eq, Bool.not_eq_true']
  constructor
  · rintro ⟨⟨⟨⟨⟨⟨⟨h1, h2⟩, h3⟩, h4⟩, h5⟩, h6⟩, h7⟩, h8⟩
    refine ⟨h1, h2, h3, h4, h5, ?_, ?_, h8⟩
    · intro he
      rcases h6 with h6 | h6
      · exact absurd he (by simp [h6])
      · exact h6
    · intro he
      rcases h7 with h7 | h7
      · exact absurd he (by simp [h7])
      · exact h7
  · rintro ⟨h1, h2, h3, h4, h5, h6, h7, h8⟩
    refine ⟨⟨⟨⟨⟨⟨⟨h1, h2⟩, h3⟩, h4⟩, h5⟩, ?_⟩, ?_⟩, h8⟩
    · by_cases he : user.tweets_enable_retweet_threshold = true
      · exact Or.inr (h6 he)
      · exact Or.inl (by simpa using he)
    · by_cases he : user.tweets_enable_like_threshold = true
      · exact Or.inr (h7 he)
      · exact Or.inl (by simpa using he)

theorem mem_tweetsToDeleteAt {db : DB} {user : User} {thr : PyTime}
    {inc : Bool} {t : Tweet} :
    t ∈ tweetsToDeleteAt db user thr inc ↔
      t ∈ db.tweets ∧ tweetFilters user thr inc t = true ∧
        (threadJoinOk db.threads t = true ∨ t.thread_id = none) := by
  unfold tweetsToDeleteAt
  simp only [List.mem_insertionSort, List.mem_append, List.mem_filter,
    Bool.and_eq_true, beq_iff_eq]
  tauto

theorem tweetProtectsThread_eq_true_iff {user : User} {th : Thread}
    {t : Tweet} :
    tweetProtectsThread user th t = true ↔
      t.thread_id = some th.id ∧ t.user_id = user.id ∧ t.is_deleted = false ∧
      t.is_retweet = false ∧ user.tweets_retweet_threshold ≤ t.retweet_count ∧
      user.tweets_like_threshold ≤ t.like_count := by
  simp [tweetProtectsThread, Bool.and_eq_true, decide_eq_true_eq, and_assoc]

theorem find_thread_unique {l : List Thread}
    (hp : l.Pairwise fun a b => a.id ≠ b.id) {tid : Nat} {th0 : Thread}
    (hf : l.find? (fun th => th.id == tid) = some th0) :
    ∀ th ∈ l, th.id = tid → th = th0 := by
  induction l with
  | nil => simp at hf
  | cons hd tl ih =>
    intro th hth htid
    rcases List.mem_cons.mp hth with rfl | hmem
    · rw [@List.find?_cons_of_pos _ (fun x => x.id == tid) th tl
        (by simp [htid])] at hf
      exact (Option.some_inj.mp hf)
    · by_cases hhd : (hd.id == tid) = true
      · have hne := (List.pairwise_cons.mp hp).1 th hmem
        exact absurd ((beq_iff_eq.mp hhd).trans htid.symm) hne
      · rw [@List.find?_cons_of_neg _ (fun x => x.id == tid) hd tl hhd] at hf
        exact ih (List.pairwise_cons.mp hp).2 hf th hmem htid

theorem mem_tweets_to_delete {db : DB} {user : User} {now : PyTime}
    {inc : Bool} {t : Tweet} :
    t ∈ tweets_to_delete db user now inc ↔
      t ∈ db.tweets ∧
        tweetFilters user (tweetsDeleteThreshold user now) inc t = true ∧
        (threadJoinOk db.threads t = true ∨ t.thread_id = none) := by
  unfold tweets_to_delete
  exact mem_tweetsToDeleteAt

theorem clearStep_idem (user : User) (th : Thread) :
    clearStep user (clearStep user th) = clearStep user th := by
  obtain ⟨i, uid, conv, flag⟩ := th
  unfold clearStep
  by_cases h : (uid == user.id) = true <;> simp [h]

theorem excludeStep_clearStep_idem (user : User) (tweets : List Tweet)
    (th : Thread) :
    excludeStep user tweets (clearStep user
      (excludeStep user tweets (clearStep user th))) =
      excludeStep user tweets (clearStep user th) := by
  obtain ⟨i, uid, conv, flag⟩ := th
  unfold clearStep excludeStep
  by_cases howner : (uid == user.id) = true
  · by_cases hany :
      tweets.any (tweetProtectsThread user ⟨i, uid, conv, false⟩) = true
    · simp [howner, hany]
    · simp [howner, hany]
  · simp [howner]

theorem unretweetLoop_spec (items : List (Bool × Tweet)) (c : Nat) :
    (unretweetLoop items c).2 = c + items.length ∧
    (∀ t ∈ (unretweetLoop items c).1, t.is_deleted = true) ∧
    unretweetLoop items c = unretweetLoop (items.map fun p => (true, p.2)) c := by
  induction items generalizing c with
  | nil => simp [unretweetLoop]
  | cons p rest ih =>
    obtain ⟨ok, t⟩ := p
    obtain ⟨ih1, ih2, ih3⟩ := ih (c + 1)
    refine ⟨?_, ?_, ?_⟩
    · cases ok <;> simp [unretweetLoop, unretweetIter, ih1] <;> omega
    · cases ok <;> simp only [unretweetLoop, unretweetIter, List.mem_cons,
        forall_eq_or_imp, if_true, if_false, Bool.false_eq_true] <;>
        exact ⟨trivial, ih2⟩
    · cases ok <;> simp only [unretweetLoop, unretweetIter, List.map_cons,
        if_true, if_false, Bool.false_eq_true] <;> rw [ih3]

theorem unlikeLoop_spec (items : List (Bool × Like)) (c : Nat) :
    (unlikeLoop items c).2 = c + items.length ∧
    (∀ lk ∈ (unlikeLoop items c).1, lk.is_deleted = true) ∧
    unlikeLoop items c = unlikeLoop (items.map fun p => (true, p.2)) c := by
  induction items generalizing c with
  | nil => simp [unlikeLoop]
  | cons p rest ih =>
    obtain ⟨ok, lk⟩ := p
    obtain ⟨ih1, ih2, ih3⟩ := ih (c + 1)
    refine ⟨?_, ?_, ?_⟩
    · cases ok <;> simp [unlikeLoop, unlikeIter, ih1] <;> omega
    · cases ok <;> simp only [unlikeLoop, unlikeIter, List.mem_cons,
        forall_eq_or_imp, if_true, if_false, Bool.false_eq_true] <;>
        exact ⟨trivial, ih2⟩
    · cases ok <;> simp only [unlikeLoop, unlikeIter, List.map_cons,
        if_true, if_false, Bool.false_eq_true] <;> rw [ih3]

theorem deleteTweetsLoop_spec (items : List (Bool × Tweet)) (c : Nat) :
    (deleteTweetsLoop items c).2 = c + items.length ∧
    (∀ t ∈ (deleteTweetsLoop items c).1, t.is_deleted = true) ∧
    deleteTweetsLoop items c = deleteTweetsLoop (items.map fun p => (true, p.2)) c := by
  induction items generalizing c with
  | nil => simp [deleteTweetsLoop]
  | cons p rest ih =>
    obtain ⟨ok, t⟩ := p
    obtain ⟨ih1, ih2, ih3⟩ := ih (c + 1)
    refine ⟨?_, ?_, ?_⟩
    · cases ok <;> simp [deleteTweetsLoop, deleteTweetIter, ih1] <;> omega
    · cases ok <;> simp only [deleteTweetsLoop, deleteTweetIter, List.mem_cons,
        forall_eq_or_imp, if_true, if_false, Bool.false_eq_true] <;>
        exact ⟨trivial, ih2⟩
    · cases ok <;> simp only [deleteTweetsLoop, deleteTweetIter, List.map_cons,
        if_true, if_false, Bool.false_eq_true] <;> rw [ih3]

/-! ### Claim theorems -/

/-- C2 counterexample: with a reset hint 30 seconds in the past (reset = 70,
now = 100), the handler computes a wait of 0 seconds and skips the sleep,
whereas the claimed formula `max(retryAfterSeconds, 0) + 1` yields 1: the
wait does not clamp to a 1-second floor. -/
theorem rate_limit_past_hint_no_floor :
    handle_tweepy_rate_limit (some 70) 100 = 0 ∧
    max ((70 : Int) - 100) 0 + 1 = 1 ∧ (0 : Int) ≠ 1 := by
  decide

/-- C2 (amended): with no reset header the handler sleeps 61 seconds; with a
reset hint strictly in the future it sleeps `resetDelta + 1` seconds; with a
reset hint at or before the current time it does not sleep at all (wait 0,
there is no 1-second floor); the wait is never negative. -/
theorem rate_limit_wait_characterization (now r : Int) (hpast : r ≤ now) :
    handle_tweepy_rate_limit none now = 61 ∧
    handle_tweepy_rate_limit (some r) now = 0 ∧
    (∀ r2 : Int, now < r2 →
      handle_tweepy_rate_limit (some r2) now = r2 - now + 1) ∧
    (∀ h : Option Int, 0 ≤ handle_tweepy_rate_limit h now) := by
  refine ⟨?_, ?_, ?_, ?_⟩
  · simp [handle_tweepy_rate_limit]
  · simp only [handle_tweepy_rate_limit]
    rw [if_neg (by omega)]
  · intro r2 h2
    simp only [handle_tweepy_rate_limit]
    rw [if_pos (by omega)]
  · intro h
    cases h <;> simp only [handle_tweepy_rate_limit] <;> split <;> omega

/-- C2 witness: the amended characterization evaluated at now = 100 with a
past hint 70 and a future hint 130. -/
theorem rate_limit_wait_characterization_witness :
    handle_tweepy_rate_limit none 100 = 61 ∧
    handle_tweepy_rate_limit (some 70) 100 = 0 ∧
    handle_tweepy_rate_limit (some 130) 100 = 130 - 100 + 1 ∧
    0 ≤ handle_tweepy_rate_limit (some 70) 100 :=
  ⟨(rate_limit_wait_characterization 100 70 (by decide)).1,
   (rate_limit_wait_characterization 100 70 (by decide)).2.1,
   (rate_limit_wait_characterization 100 70 (by decide)).2.2.1 130 (by decide),
   (rate_limit_wait_characterization 100 70 (by decide)).2.2.2 (some 70)⟩

/-- C6 counterexample: the fetch entry point sets a job whose status is
already canceled (a terminal state) back to active. -/
theorem fetch_reactivates_canceled_job :
    fetchEntryStatus JobStatus.canceled = JobStatus.active ∧
    JobStatus.active ≠ JobStatus.canceled := by
  decide

/-- C6 (amended): only the delete entry point guards the terminal state
`canceled` — it leaves a canceled job untouched and activates any other
job — while the fetch entry point sets the status to active unconditionally,
so a canceled job re-entered through fetch moves back to active. -/
theorem job_entry_status_behaviour (s s2 : JobStatus)
    (hs : s ≠ JobStatus.canceled) :
    deleteEntryStatus JobStatus.canceled = JobStatus.canceled ∧
    deleteEntryStatus s = JobStatus.active ∧
    fetchEntryStatus s2 = JobStatus.active := by
  refine ⟨rfl, ?_, rfl⟩
  simp [deleteEntryStatus, hs]

/-- C6 witness: the amended statement at s = pending, s2 = canceled. -/
theorem job_entry_status_behaviour_witness :
    deleteEntryStatus JobStatus.canceled = JobStatus.canceled ∧
    deleteEntryStatus JobStatus.pending = JobStatus.active ∧
    fetchEntryStatus JobStatus.canceled = JobStatus.active :=
  job_entry_status_behaviour JobStatus.pending JobStatus.canceled (by decide)

/-- C9 counterexample: a user with a stored DM threshold of 30 days, clock
time 1000 and a DM created at 971 (29 days old): the delete job does not
delete it, while a 29-day threshold would — so the delete workflow does not
behave as if the threshold were clamped to 29 days. -/
theorem delete_dm_threshold_not_clamped :
    dmShouldDelete sampleUser 1000 971 = false ∧
    dmShouldDelete { sampleUser with direct_messages_threshold := 29 }
      1000 971 = true := by
  decide

/-- C9 (amended): the 29-day clamp is applied by the settings-save endpoint
(`api_post_settings` in `web.py`), not by the delete workflow: a threshold
requested above 29 days is stored as 29, and the delete job then computes its
DM cutoff from the stored value without any clamp of its own, so such a user's
cutoff is exactly `now - 29` days. -/
theorem dm_clamp_at_settings_save (requested : Int) (now : PyTime)
    (user : User) (hreq : 29 < requested)
    (hstored : user.direct_messages_threshold =
      api_post_settings_dm_threshold requested) :
    user.direct_messages_threshold = 29 ∧
    deleteDmThreshold user now = now - 29 := by
  rw [api_post_settings_dm_threshold, if_pos hreq] at hstored
  exact ⟨hstored, by rw [deleteDmThreshold, hstored]⟩

/-- C9 witness: requested threshold 50, stored as 29; cutoff at clock 1000. -/
theorem dm_clamp_at_settings_save_witness :
    ({ sampleUser with direct_messages_threshold := 29 }
      : User).direct_messages_threshold = 29 ∧
    deleteDmThreshold { sampleUser with direct_messages_threshold := 29 }
      1000 = 1000 - 29 :=
  dm_clamp_at_settings_save 50 1000
    { sampleUser with direct_messages_threshold := 29 }
    (by decide) (by decide)

/-- C10: in the unretweet, unlike and delete-tweet loops, every selected item
is tombstoned (`is_deleted = true`) and the progress counter is incremented
once per item, regardless of whether the external destroy call succeeded or
raised (the loop result does not depend on the outcomes at all, so a failed
destroy still tombstones, counts, and the loop continues). -/
theorem delete_loops_tombstone_and_count
    (tweetItems retweetItems : List (Bool × Tweet))
    (likeItems : List (Bool × Like)) (c : Nat) :
    ((deleteTweetsLoop tweetItems c).2 = c + tweetItems.length ∧
      (∀ t ∈ (deleteTweetsLoop tweetItems c).1, t.is_deleted = true) ∧
      deleteTweetsLoop tweetItems c =
        deleteTweetsLoop (tweetItems.map fun p => (true, p.2)) c) ∧
    ((unretweetLoop retweetItems c).2 = c + retweetItems.length ∧
      (∀ t ∈ (unretweetLoop retweetItems c).1, t.is_deleted = true) ∧
      unretweetLoop retweetItems c =
        unretweetLoop (retweetItems.map fun p => (true, p.2)) c) ∧
    ((unlikeLoop likeItems c).2 = c + likeItems.length ∧
      (∀ lk ∈ (unlikeLoop likeItems c).1, lk.is_deleted = true) ∧
      unlikeLoop likeItems c =
        unlikeLoop (likeItems.map fun p => (true, p.2)) c) :=
  ⟨deleteTweetsLoop_spec tweetItems c, unretweetLoop_spec retweetItems c,
   unlikeLoop_spec likeItems c⟩

/-- C7: the exclusion recompute is idempotent — running
`calculate_excluded_threads` twice with unchanged posts, threads and settings
yields exactly the same store (hence the same set of `should_exclude`
threads) as running it once. -/
theorem exclusion_recompute_idempotent (user : User) (db : DB) :
    runCalculateExcludedThreads user (runCalculateExcludedThreads user db) =
      runCalculateExcludedThreads user db := by
  obtain ⟨tweets, threads⟩ := db
  unfold runCalculateExcludedThreads calculate_excluded_threads
  by_cases henabled : user.tweets_threads_threshold = true
  · simp only [henabled, if_true, List.map_map]
    congr 1
    apply List.map_congr_left
    intro th _
    simpa [Function.comp] using excludeStep_clearStep_idem user tweets th
  · simp only [henabled, Bool.false_eq_true, if_false, List.map_map]
    congr 1
    apply List.map_congr_left
    intro th _
    simpa [Function.comp] using clearStep_idem user th

/-- C3: every thread in the recompute's output that belongs to the user has
`should_exclude = true` exactly when thread protection is enabled and some
post of the thread is a non-retweet, non-deleted post meeting BOTH the
retweet-count and like-count thresholds; threads of other users pass through
unchanged. -/
theorem exclusion_recompute_characterization (user : User) (db : DB)
    (th : Thread) (hmem : th ∈ calculate_excluded_threads user db) :
    (th.user_id ≠ user.id → th ∈ db.threads) ∧
    (th.user_id = user.id →
      (th.should_exclude = true ↔
        user.tweets_threads_threshold = true ∧
        ∃ t ∈ db.tweets, t.thread_id = some th.id ∧ t.user_id = user.id ∧
          t.is_deleted = false ∧ t.is_retweet = false ∧
          user.tweets_retweet_threshold ≤ t.retweet_count ∧
          user.tweets_like_threshold ≤ t.like_count)) := by
  unfold calculate_excluded_threads at hmem
  by_cases henabled : user.tweets_threads_threshold = true
  · rw [if_pos henabled, List.map_map] at hmem
    obtain ⟨th0, hth0, heq⟩ := List.mem_map.mp hmem
    obtain ⟨i, uid, conv, flag⟩ := th0
    by_cases howner : (uid == user.id) = true
    · by_cases hany :
        db.tweets.any (tweetProtectsThread user ⟨i, uid, conv, false⟩) = true
      · have hth : th = ⟨i, uid, conv, true⟩ := by
          simpa [Function.comp, clearStep, excludeStep, howner, hany]
            using heq.symm
        subst hth
        refine ⟨fun hne => absurd (by simpa using howner) hne, fun _ => ?_⟩
        constructor
        · intro _
          refine ⟨henabled, ?_⟩
          obtain ⟨t, htmem, hp⟩ := List.any_eq_true.mp hany
          obtain ⟨p1, p2, p3, p4, p5, p6⟩ :=
            tweetProtectsThread_eq_true_iff.mp hp
          exact ⟨t, htmem, p1, p2, p3, p4, p5, p6⟩
        · intro _
          rfl
      · have hth : th = ⟨i, uid, conv, false⟩ := by
          simpa [Function.comp, clearStep, excludeStep, howner, hany]
            using heq.symm
        subst hth
        refine ⟨fun hne => absurd (by simpa using howner) hne, fun _ => ?_⟩
        constructor
        · intro hfl
          exact absurd hfl (by simp)
        · rintro ⟨_, t, htmem, p1, p2, p3, p4, p5, p6⟩
          exact absurd
            (List.any_eq_true.mpr
              ⟨t, htmem, tweetProtectsThread_eq_true_iff.mpr
                ⟨p1, p2, p3, p4, p5, p6⟩⟩)
            hany
    · have hth : th = ⟨i, uid, conv, flag⟩ := by
        simpa [Function.comp, clearStep, excludeStep, howner] using heq.symm
      subst hth
      exact ⟨fun _ => hth0, fun hid => absurd (by simp only [beq_iff_eq]; exact hid) howner⟩
  · rw [if_neg henabled] at hmem
    obtain ⟨th0, hth0, heq⟩ := List.mem_map.mp hmem
    obtain ⟨i, uid, conv, flag⟩ := th0
    by_cases howner : (uid == user.id) = true
    · have hth : th = ⟨i, uid, conv, false⟩ := by
        simpa [clearStep, howner] using heq.symm
      subst hth
      refine ⟨fun hne => absurd (by simpa using howner) hne, fun _ => ?_⟩
      constructor
      · intro hfl
        exact absurd hfl (by simp)
      · rintro ⟨he, _⟩
        exact absurd he henabled
    · have hth : th = ⟨i, uid, conv, flag⟩ := by
        simpa [clearStep, howner] using heq.symm
      subst hth
      exact ⟨fun _ => hth0, fun hid => absurd (by simp only [beq_iff_eq]; exact hid) howner⟩

/-- C3 witness: the recompute on `sampleDb` marks thread 5 excluded, and the
characterization instantiates there: thread protection is on and the thread
contains a qualifying post. -/
theorem exclusion_recompute_characterization_witness :
    (⟨5, 1, 9, true⟩ : Thread) ∈
      calculate_excluded_threads sampleUser sampleDb ∧
    sampleUser.tweets_threads_threshold = true ∧
    ∃ t ∈ sampleDb.tweets, t.thread_id = some 5 ∧ t.user_id = sampleUser.id ∧
      t.is_deleted = false ∧ t.is_retweet = false ∧
      sampleUser.tweets_retweet_threshold ≤ t.retweet_count ∧
      sampleUser.tweets_like_threshold ≤ t.like_count :=
  ⟨by decide,
   ((exclusion_recompute_characterization sampleUser sampleDb
      ⟨5, 1, 9, true⟩ (by decide)).2 rfl).mp rfl⟩

/-- C5: tombstone monotonicity — the fetch job's update of an already-stored
tweet leaves `is_deleted` unchanged, the exclusion recompute does not write
the tweets table at all, and the selector never returns an already-deleted
tweet, so no fetch/exclusion/selection pass resets `is_deleted`. -/
theorem tombstone_monotonic (status : Status) (tid : Nat) (t : Tweet)
    (user : User) (db : DB) (now : PyTime) (inc : Bool)
    (ht : t.is_deleted = true) :
    (fetchUpdateExistingTweet status tid t).is_deleted = t.is_deleted ∧
    (runCalculateExcludedThreads user db).tweets = db.tweets ∧
    t ∉ tweets_to_delete db user now inc := by
  refine ⟨rfl, rfl, fun hmem => ?_⟩
  unfold tweets_to_delete at hmem
  have h := (tweetFilters_eq_true_iff.mp
    (mem_tweetsToDeleteAt.mp hmem).2.1).2.2.1
  rw [ht] at h
  exact absurd h (by simp)

/-- C10 witness: the loops evaluated at a one-item list whose external
destroy call failed: the counter still advances and the item is tombstoned. -/
theorem delete_loops_tombstone_and_count_witness :
    (deleteTweetsLoop [(false, sampleProtectTweet)] 0).2 = 0 + 1 ∧
    ({ sampleProtectTweet with is_deleted := true } : Tweet).is_deleted =
      true ∧
    (unretweetLoop ([] : List (Bool × Tweet)) 0).2 = 0 + 0 ∧
    (unlikeLoop ([] : List (Bool × Like)) 0).2 = 0 + 0 := by
  obtain ⟨ha, hb, hc⟩ :=
    delete_loops_tombstone_and_count [(false, sampleProtectTweet)]
      ([] : List (Bool × Tweet)) ([] : List (Bool × Like)) 0
  exact ⟨by simpa using ha.1, ha.2.1 _ (by decide), by simpa using hb.1,
    by simpa using hc.1⟩

/-- C1: with `include_manually_excluded = false` every selected post is not a
retweet, not tombstoned, not manually excluded and not in an excluded thread;
with `include_manually_excluded = true` the other filters still hold, and the
two selections differ exactly by the manual-exclusion filter. -/
theorem selector_respects_exclusions (db : DB) (user : User) (now : PyTime)
    (hids : db.threads.Pairwise fun a b => a.id ≠ b.id) :
    (∀ t ∈ tweets_to_delete db user now false,
        t.is_retweet = false ∧ t.is_deleted = false ∧
        t.exclude_from_delete = false ∧
        ∀ th ∈ db.threads, t.thread_id = some th.id →
          th.should_exclude = false) ∧
    (∀ t ∈ tweets_to_delete db user now true,
        t.is_retweet = false ∧ t.is_deleted = false ∧
        ∀ th ∈ db.threads, t.thread_id = some th.id →
          th.should_exclude = false) ∧
    (∀ t, t ∈ tweets_to_delete db user now false ↔
        t ∈ tweets_to_delete db user now true ∧
          t.exclude_from_delete = false) := by
  have thread_cond : ∀ {inc : Bool} {t : Tweet},
      t ∈ tweets_to_delete db user now inc →
      ∀ th ∈ db.threads, t.thread_id = some th.id →
        th.should_exclude = false := by
    intro inc t hmem th hth htid
    rcases (mem_tweets_to_delete.mp hmem).2.2 with hok | hnone
    · simp only [threadJoinOk, htid] at hok
      cases hfind : db.threads.find? (fun x => x.id == th.id) with
      | none => rw [hfind] at hok; simp at hok
      | some th2 =>
        rw [hfind] at hok
        have heq : th = th2 := find_thread_unique hids hfind th hth rfl
        rw [heq]
        simpa using hok
    · rw [htid] at hnone
      simp at hnone
  refine ⟨?_, ?_, ?_⟩
  · intro t hmem
    have hf := tweetFilters_eq_true_iff.mp (mem_tweets_to_delete.mp hmem).2.1
    exact ⟨hf.2.2.2.1, hf.2.2.1,
      hf.2.2.2.2.2.2.2.resolve_left (by simp), thread_cond hmem⟩
  · intro t hmem
    have hf := tweetFilters_eq_true_iff.mp (mem_tweets_to_delete.mp hmem).2.1
    exact ⟨hf.2.2.2.1, hf.2.2.1, thread_cond hmem⟩
  · intro t
    rw [mem_tweets_to_delete, mem_tweets_to_delete]
    constructor
    · rintro ⟨h1, h2, h3⟩
      obtain ⟨f1, f2, f3, f4, f5, f6, f7, f8⟩ := tweetFilters_eq_true_iff.mp h2
      exact ⟨⟨h1, tweetFilters_eq_true_iff.mpr
          ⟨f1, f2, f3, f4, f5, f6, f7, Or.inl rfl⟩, h3⟩,
        f8.resolve_left (by simp)⟩
    · rintro ⟨⟨h1, h2, h3⟩, hexcl⟩
      obtain ⟨f1, f2, f3, f4, f5, f6, f7, _⟩ := tweetFilters_eq_true_iff.mp h2
      exact ⟨h1, tweetFilters_eq_true_iff.mpr
        ⟨f1, f2, f3, f4, f5, f6, f7, Or.inr hexcl⟩, h3⟩

/-- C1 witness: on `sampleDb` at clock 1000, `sampleProtectTweet` is
selected; it is not a retweet, not deleted, not manually excluded, its thread
(id 5) is not excluded, and the two selection modes agree on it up to the
manual-exclusion flag. -/
theorem selector_respects_exclusions_witness :
    sampleProtectTweet.is_retweet = false ∧
    sampleProtectTweet.is_deleted = false ∧
    sampleProtectTweet.exclude_from_delete = false ∧
    (⟨5, 1, 9, false⟩ : Thread).should_exclude = false ∧
    (sampleProtectTweet ∈ tweets_to_delete sampleDb sampleUser 1000 false ↔
      sampleProtectTweet ∈ tweets_to_delete sampleDb sampleUser 1000 true ∧
        sampleProtectTweet.exclude_from_delete = false) := by
  have h := selector_respects_exclusions sampleDb sampleUser 1000 (by decide)
  obtain ⟨h1, h2, h3, h4⟩ := h.1 sampleProtectTweet (by decide)
  exact ⟨h1, h2, h3, h4 ⟨5, 1, 9, false⟩ (by decide) (by decide),
    h.2.2 sampleProtectTweet⟩

/-- C4: the selector output is sorted ascending by `created_at`, and (when
the threshold computation does not overflow) every selected post is strictly
older than `now - days_threshold`; a post dated exactly at the cutoff is not
returned. -/
theorem selector_sorted_and_age_bound (db : DB) (user : User) (now : PyTime)
    (inc : Bool)
    (hov : overflowsPyDate (now - user.tweets_days_threshold) = false) :
    List.Pairwise (fun a b : Tweet => a.created_at ≤ b.created_at)
      (tweets_to_delete db user now inc) ∧
    ∀ t ∈ tweets_to_delete db user now inc,
      t.created_at < now - user.tweets_days_threshold ∧
      t.created_at ≠ now - user.tweets_days_threshold := by
  constructor
  · unfold tweets_to_delete tweetsToDeleteAt
    exact List.sorted_insertionSort tweetLe _
  · intro t hmem
    have h5 := (tweetFilters_eq_true_iff.mp
      (mem_tweets_to_delete.mp hmem).2.1).2.2.2.2.1
    have hthr : tweetsDeleteThreshold user now =
        now - user.tweets_days_threshold := by
      unfold tweetsDeleteThreshold
      simp [hov]
    rw [hthr] at h5
    exact ⟨h5, ne_of_lt h5⟩

/-- C4 witness: on `sampleDb` at clock 1000 with a 30-day threshold, the
output is sorted and `sampleProtectTweet` (created 500) is strictly older
than the cutoff 970. -/
theorem selector_sorted_and_age_bound_witness :
    List.Pairwise (fun a b : Tweet => a.created_at ≤ b.created_at)
      (tweets_to_delete sampleDb sampleUser 1000 false) ∧
    (sampleProtectTweet.created_at <
      1000 - sampleUser.tweets_days_threshold ∧
    sampleProtectTweet.created_at ≠
      1000 - sampleUser.tweets_days_threshold) := by
  have h := selector_sorted_and_age_bound sampleDb sampleUser 1000 false
    (by decide)
  exact ⟨h.1, h.2 sampleProtectTweet (by decide)⟩

/-- C8: when `now - days_threshold` overflows the representable date range,
the selector does not fail: the computed cutoff is clamped to July 1, 2006
and selection proceeds with that cutoff. -/
theorem selector_overflow_clamps (db : DB) (user : User) (now : PyTime)
    (inc : Bool)
    (hov : overflowsPyDate (now - user.tweets_days_threshold) = true) :
    tweetsDeleteThreshold user now = july_1_2006 ∧
    tweets_to_delete db user now inc =
      tweetsToDeleteAt db user july_1_2006 inc := by
  have h1 : tweetsDeleteThreshold user now = july_1_2006 := by
    unfold tweetsDeleteThreshold
    simp [hov]
  exact ⟨h1, by unfold tweets_to_delete; rw [h1]⟩

/-- C8 witness: a ten-million-day threshold at clock 1000 underflows the date
range; the cutoff clamps to July 1, 2006 and selection proceeds. -/
theorem selector_overflow_clamps_witness :
    tweetsDeleteThreshold
      { sampleUser with tweets_days_threshold := 10000000 } 1000 =
      july_1_2006 ∧
    tweets_to_delete sampleDb
      { sampleUser with tweets_days_threshold := 10000000 } 1000 false =
      tweetsToDeleteAt sampleDb
        { sampleUser with tweets_days_threshold := 10000000 }
        july_1_2006 false :=
  selector_overflow_clamps sampleDb
    { sampleUser with tweets_days_threshold := 10000000 } 1000 false
    (by decide)

/-- C5 witness: the tombstoned `sampleDeletedTweet` keeps its flag through a
fetch update, the recompute leaves `sampleDb`'s tweets untouched, and the
selector does not return the tweet. -/
theorem tombstone_monotonic_witness :
    (fetchUpdateExistingTweet sampleStatus 5 sampleDeletedTweet).is_deleted =
      sampleDeletedTweet.is_deleted ∧
    (runCalculateExcludedThreads sampleUser sampleDb).tweets =
      sampleDb.tweets ∧
    sampleDeletedTweet ∉ tweets_to_delete sampleDb sampleUser 1000 false :=
  tombstone_monotonic sampleStatus 5 sampleDeletedTweet sampleUser sampleDb
    1000 false (by decide)

end Semiphemeral
